import Mathlib

/-!
# Shallow embedding of `roofing-calculations.ts`

This file embeds the core pricing/estimation logic of the roofing cost
calculator (`src/client/src/lib/roofing-calculations.ts` together with the
type declarations of `types/roofing.ts`) into Lean and proves the stated
properties about it.

Modelling conventions:
* Monetary and area quantities computed by `calculateRoofingCost` are
  rationals (`ℚ`): every constant in that function is a decimal literal and
  the function performs only field arithmetic.
* `calculateRoofSize` uses `Math.sqrt`, so it is embedded over `ℝ` with
  `Real.sqrt`; `Math.round` (round half towards +∞) is Mathlib's `round`
  (`round x = ⌊x + 1/2⌋`).
* The `material` form field has TypeScript type `MaterialType | ''`; it is
  embedded as `Option MaterialType`, with `none` standing for the empty
  string.
* `calculateRoofingCost` returns `CostBreakdown | null`; in JavaScript the
  lookup `materialPricing[roofingType][material]` yields `undefined` when
  the material is absent from that category's record, and the subsequent
  array destructuring then throws a `TypeError`.  The result type is
  therefore embedded as `CalcResult` with three constructors: `ok`
  (a breakdown), `null`, and `err` (the thrown `TypeError`).
-/

namespace RoofCalc

/-- `RoofingType` from `types/roofing.ts`. -/
inductive RoofingType
  | residential
  | commercial
  deriving DecidableEq, Repr

/-- `MaterialType` from `types/roofing.ts`. -/
inductive MaterialType
  | asphalt
  | clay
  | metal
  | wood
  | slate
  | membrane
  | tpo
  | pvc
  | epdm
  | modified
  | bur
  deriving DecidableEq, Repr

/-- `JobType` from `types/roofing.ts`. -/
inductive JobType
  | new
  | replacement
  | repair
  deriving DecidableEq, Repr

/-- `ComplexityType` from `types/roofing.ts`. -/
inductive ComplexityType
  | simple
  | medium
  | complex
  deriving DecidableEq, Repr

/-- `PitchType` from `types/roofing.ts`. -/
inductive PitchType
  | flat
  | low
  | medium
  | steep
  deriving DecidableEq, Repr

/-- The `materialPricing` two-level table (lines 4–22 of
`roofing-calculations.ts`).  `materialPricing rt m = some (low, high)` when
the material key is present in the category's record, `none` when the
JavaScript lookup would yield `undefined`. -/
def materialPricing : RoofingType → MaterialType → Option (ℚ × ℚ)
  | .residential, .asphalt  => some (5, 10)
  | .residential, .clay     => some (11, 25)
  | .residential, .metal    => some (7, 20)
  | .residential, .wood     => some (8, 15)
  | .residential, .slate    => some (15, 40)
  | .residential, .membrane => some (7, 12)
  | .residential, _         => none
  | .commercial, .tpo       => some (4, 8)
  | .commercial, .pvc       => some (5, 9)
  | .commercial, .epdm      => some (4, 9)
  | .commercial, .modified  => some (4.5, 9)
  | .commercial, .bur       => some (5.5, 10)
  | .commercial, .metal     => some (8, 15)
  | .commercial, .asphalt   => some (7, 10)
  | .commercial, _          => none

/-- `CostBreakdown` from `types/roofing.ts`. -/
@[ext]
structure CostBreakdown where
  materials : ℚ
  labor : ℚ
  addons : ℚ
  totalLow : ℚ
  totalHigh : ℚ
  totalMid : ℚ
  deriving DecidableEq, Repr

/-- `CalculatorFormData` from `types/roofing.ts`; `material = none` models
the empty string. -/
structure CalculatorFormData where
  roofingType : RoofingType
  roofSize : ℚ
  material : Option MaterialType
  jobType : JobType
  complexity : ComplexityType
  tearoff : Bool
  permits : Bool

/-- Outcome of a call to `calculateRoofingCost`: a breakdown, the `null`
sentinel, or a thrown `TypeError` (destructuring `undefined`). -/
inductive CalcResult
  | ok (b : CostBreakdown)
  | null
  | err
  deriving DecidableEq, Repr

/-- The `complexityMultipliers` record (line 71). -/
def complexityMultipliers : ComplexityType → ℚ
  | .simple => 0
  | .medium => 0.2
  | .complex => 0.4

/-- Body of `calculateRoofingCost` after the guard and the successful
pricing lookup (lines 63–118), with the sequential reassignments of
`baseLow`/`baseMid`/`baseHigh` unrolled into successive `let`s. -/
def mkBreakdown (formData : CalculatorFormData) (lowCost highCost : ℚ) :
    CostBreakdown :=
  let midCost := (lowCost + highCost) / 2
  let baseLow0 := formData.roofSize * lowCost
  let baseMid0 := formData.roofSize * midCost
  let baseHigh0 := formData.roofSize * highCost
  let laborMultiplier := 1 + complexityMultipliers formData.complexity * 0.4
  let baseLow1 := baseLow0 * laborMultiplier
  let baseMid1 := baseMid0 * laborMultiplier
  let baseHigh1 := baseHigh0 * laborMultiplier
  let baseLow2 := if formData.roofingType = .commercial then baseLow1 * 1.1 else baseLow1
  let baseMid2 := if formData.roofingType = .commercial then baseMid1 * 1.1 else baseMid1
  let baseHigh2 := if formData.roofingType = .commercial then baseHigh1 * 1.1 else baseHigh1
  let addons :=
    (if formData.tearoff ∧ formData.jobType = .replacement
      then formData.roofSize * 1.5 else 0)
    + (if formData.permits then (500 : ℚ) else 0)
  let baseLow3 := if formData.jobType = .repair then baseLow2 * 0.6 else baseLow2
  let baseMid3 := if formData.jobType = .repair then baseMid2 * 0.6 else baseMid2
  let baseHigh3 := if formData.jobType = .repair then baseHigh2 * 0.6 else baseHigh2
  let totalLow := baseLow3 + addons
  let totalHigh := baseHigh3 + addons
  let totalMid := baseMid3 + addons
  { materials := totalMid * 0.6
    labor := totalMid * 0.4
    addons := addons
    totalLow := totalLow
    totalHigh := totalHigh
    totalMid := totalMid }

/-- `calculateRoofingCost` (lines 55–119).  The guard
`!roofSize || !material || roofSize <= 0` returns `null` when
`roofSize ≤ 0` (`!roofSize` catches `0`, the comparison catches negatives)
or the material is the empty string; a material key absent from the
category's record makes the destructuring of `undefined` throw (`err`). -/
def calculateRoofingCost (formData : CalculatorFormData) : CalcResult :=
  if formData.roofSize ≤ 0 ∨ formData.material = none then .null
  else
    match formData.material with
    | none => .null
    | some m =>
      match materialPricing formData.roofingType m with
      | none => .err
      | some (lowCost, highCost) => .ok (mkBreakdown formData lowCost highCost)

/-- `RoofSizeHelperData` from `types/roofing.ts`. -/
structure RoofSizeHelperData where
  footprint : ℝ
  overhang : ℝ
  pitch : PitchType

/-- The `pitchMultipliers` record (lines 133–138). -/
def pitchMultipliers : PitchType → ℝ
  | .flat => 1.0
  | .low => 1.1
  | .medium => 1.3
  | .steep => 1.5

/-- `calculateRoofSize` (lines 121–145): returns 0 when `footprint ≤ 0`
(the guard `!footprint || footprint <= 0`), otherwise
`Math.round((footprint + perimeter·overhang/12) · pitchMultiplier · 1.125)`
with `perimeter = 4·√footprint`. -/
noncomputable def calculateRoofSize (data : RoofSizeHelperData) : ℤ :=
  if data.footprint ≤ 0 then 0
  else
    let perimeter := 4 * Real.sqrt data.footprint
    let overhangSqFt := perimeter * data.overhang / 12
    round ((data.footprint + overhangSqFt) * pitchMultipliers data.pitch * 1.125)

/-! ## Proof-convenience reformulations

`addonsOf` names the add-ons sum of lines 86–93, and `scaledBase` the
multiplier chain of lines 66–100 applied to a single per-area price; the
lemmas below relate them to `mkBreakdown` definitionally. -/

/-- The add-ons computed at lines 86–93 of the source. -/
def addonsOf (formData : CalculatorFormData) : ℚ :=
  (if formData.tearoff ∧ formData.jobType = .replacement
    then formData.roofSize * 1.5 else 0)
  + (if formData.permits then (500 : ℚ) else 0)

/-- The multiplier chain of lines 66–100 applied to `roofSize * price`. -/
def scaledBase (formData : CalculatorFormData) (price : ℚ) : ℚ :=
  let base0 := formData.roofSize * price
  let base1 := base0 * (1 + complexityMultipliers formData.complexity * 0.4)
  let base2 := if formData.roofingType = .commercial then base1 * 1.1 else base1
  if formData.jobType = .repair then base2 * 0.6 else base2

/-- The product of the three multiplicative adjustments (complexity labor
factor, commercial premium, repair reduction). -/
def scaleFactor (formData : CalculatorFormData) : ℚ :=
  (1 + complexityMultipliers formData.complexity * 0.4)
  * (if formData.roofingType = .commercial then 1.1 else 1)
  * (if formData.jobType = .repair then 0.6 else 1)

theorem mkBreakdown_addons (fd : CalculatorFormData) (l h : ℚ) :
    (mkBreakdown fd l h).addons = addonsOf fd := rfl

theorem mkBreakdown_totalLow (fd : CalculatorFormData) (l h : ℚ) :
    (mkBreakdown fd l h).totalLow = scaledBase fd l + addonsOf fd := rfl

theorem mkBreakdown_totalMid (fd : CalculatorFormData) (l h : ℚ) :
    (mkBreakdown fd l h).totalMid = scaledBase fd ((l + h) / 2) + addonsOf fd := rfl

theorem mkBreakdown_totalHigh (fd : CalculatorFormData) (l h : ℚ) :
    (mkBreakdown fd l h).totalHigh = scaledBase fd h + addonsOf fd := rfl

theorem mkBreakdown_materials (fd : CalculatorFormData) (l h : ℚ) :
    (mkBreakdown fd l h).materials = (mkBreakdown fd l h).totalMid * 0.6 := rfl

theorem mkBreakdown_labor (fd : CalculatorFormData) (l h : ℚ) :
    (mkBreakdown fd l h).labor = (mkBreakdown fd l h).totalMid * 0.4 := rfl

theorem scaledBase_eq (fd : CalculatorFormData) (p : ℚ) :
    scaledBase fd p = fd.roofSize * p * scaleFactor fd := by
  simp only [scaledBase, scaleFactor]
  split_ifs <;> ring

theorem complexityMultipliers_nonneg (c : ComplexityType) :
    0 ≤ complexityMultipliers c := by
  cases c <;> norm_num [complexityMultipliers]

theorem scaleFactor_pos (fd : CalculatorFormData) : 0 < scaleFactor fd := by
  have h := complexityMultipliers_nonneg fd.complexity
  unfold scaleFactor
  split_ifs <;> nlinarith

theorem scaledBase_mono (fd : CalculatorFormData) {p q : ℚ} (hpq : p ≤ q)
    (hs : 0 ≤ fd.roofSize) : scaledBase fd p ≤ scaledBase fd q := by
  rw [scaledBase_eq, scaledBase_eq]
  exact mul_le_mul_of_nonneg_right (mul_le_mul_of_nonneg_left hpq hs)
    (scaleFactor_pos fd).le

theorem addonsOf_eq_zero (fd : CalculatorFormData) (ht : fd.tearoff = false)
    (hp : fd.permits = false) : addonsOf fd = 0 := by
  simp [addonsOf, ht, hp]

/-- Every price pair actually present in the catalog satisfies `low ≤ high`. -/
theorem materialPricing_le {rt : RoofingType} {m : MaterialType} {l h : ℚ}
    (hp : materialPricing rt m = some (l, h)) : l ≤ h := by
  cases rt <;> cases m <;> simp [materialPricing] at hp <;>
    rcases hp with ⟨rfl, rfl⟩ <;> norm_num

/-- Inversion: a successful call pins down the material, its catalog entry,
positivity of the size, and the returned breakdown. -/
theorem calc_ok_elim {fd : CalculatorFormData} {b : CostBreakdown}
    (h : calculateRoofingCost fd = .ok b) :
    ∃ m lowCost highCost, fd.material = some m ∧
      materialPricing fd.roofingType m = some (lowCost, highCost) ∧
      0 < fd.roofSize ∧ b = mkBreakdown fd lowCost highCost := by
  unfold calculateRoofingCost at h
  split at h
  · exact absurd h (by simp)
  next hg =>
    push_neg at hg
    split at h
    · exact absurd h (by simp)
    next m hm =>
      split at h
      · exact absurd h (by simp)
      next l hi hpr =>
        simp only [CalcResult.ok.injEq] at h
        exact ⟨m, l, hi, hm, hpr, hg.1, h.symm⟩

/-- Introduction: with a positive size and a successful catalog lookup the
call returns the breakdown built by `mkBreakdown`. -/
theorem calc_ok_intro (fd : CalculatorFormData) (m : MaterialType) (l h : ℚ)
    (hm : fd.material = some m)
    (hpr : materialPricing fd.roofingType m = some (l, h))
    (hs : 0 < fd.roofSize) :
    calculateRoofingCost fd = .ok (mkBreakdown fd l h) := by
  have hg : ¬(fd.roofSize ≤ 0 ∨ fd.material = none) := by
    push_neg
    exact ⟨hs, by simp [hm]⟩
  unfold calculateRoofingCost
  rw [if_neg hg]
  split
  next hm2 => exact absurd (hm2 ▸ hm) (by simp)
  next m2 hm2 =>
    rw [hm] at hm2
    obtain rfl : m = m2 := by injection hm2
    split
    next hpr2 => exact absurd (hpr2 ▸ hpr) (by simp)
    next l2 h2 hpr2 =>
      rw [hpr] at hpr2
      obtain ⟨rfl, rfl⟩ : l = l2 ∧ h = h2 := by
        injection hpr2 with hq
        exact ⟨congrArg Prod.fst hq, congrArg Prod.snd hq⟩
      rfl

/-- `scaledBase` of a form record with the size replaced, as a product. -/
theorem scaledBase_roofSize (fd : CalculatorFormData) (x p : ℚ) :
    scaledBase { fd with roofSize := x } p = x * p * scaleFactor fd := by
  rw [scaledBase_eq]
  rfl

/-! ## Claims -/

/-- C1, counterexample: with `category = residential` and the
commercial-only material code `tpo`, the estimator does not return the
`null` sentinel — the lookup yields `undefined` and the destructuring
throws a `TypeError` (`err`), contradicting the claim that it "returns the
NotApplicable sentinel (null) and never raises an exception … when the
material is absent from the given category's catalog". -/
theorem calculateRoofingCost_absent_material_cex :
    calculateRoofingCost ⟨.residential, 1000, some .tpo, .new, .simple, false, false⟩
        ≠ CalcResult.null
    ∧ calculateRoofingCost ⟨.residential, 1000, some .tpo, .new, .simple, false, false⟩
        = CalcResult.err := by
  constructor
  · norm_num +decide [calculateRoofingCost, materialPricing]
  · norm_num +decide [calculateRoofingCost, materialPricing]

/-- C1 (amended): the estimator returns the `null` sentinel exactly for
`area ≤ 0` or an empty material string; when the material is non-empty but
absent from the given category's catalog the lookup of the pricing pair
yields `undefined` and the destructuring throws (modelled `err`) — it does
not return `null`. -/
theorem calculateRoofingCost_null_or_throw (fd : CalculatorFormData) :
    ((fd.roofSize ≤ 0 ∨ fd.material = none) → calculateRoofingCost fd = .null)
    ∧ (∀ m, fd.material = some m → 0 < fd.roofSize →
        materialPricing fd.roofingType m = none →
        calculateRoofingCost fd = .err) := by
  constructor
  · intro hg
    rw [calculateRoofingCost, if_pos hg]
  · intro m hm hs hpr
    have hg : ¬(fd.roofSize ≤ 0 ∨ fd.material = none) := by
      push_neg
      exact ⟨hs, by simp [hm]⟩
    unfold calculateRoofingCost
    rw [if_neg hg]
    split
    next hm2 => exact absurd (hm2 ▸ hm) (by simp)
    next m2 hm2 =>
      obtain rfl : m = m2 := by
        rw [hm] at hm2
        injection hm2
      split
      next => rfl
      next l2 h2 hpr2 => exact absurd (hpr2 ▸ hpr) (by simp)

/-- C1, witness for the amended theorem at concrete inputs. -/
theorem calculateRoofingCost_null_or_throw_witness :
    calculateRoofingCost ⟨.residential, 0, some .asphalt, .new, .simple, false, false⟩
        = CalcResult.null
    ∧ calculateRoofingCost ⟨.commercial, 1000, some .clay, .new, .simple, false, false⟩
        = CalcResult.err :=
  ⟨(calculateRoofingCost_null_or_throw _).1 (Or.inl (by norm_num)),
   (calculateRoofingCost_null_or_throw _).2 .clay rfl (by norm_num) rfl⟩

/-- C2, counterexample: for the valid request (residential, area 1000,
asphalt, replacement, simple, tearoff, no permits) the add-ons are 1500 and
the breakdown is `materials = 5400`, `labor = 3600`, `totalMid = 9000`; the
claimed identity `materials + labor + addons = totalMid` fails exactly
(10500 ≠ 9000), far beyond floating-point tolerance. -/
theorem breakdown_sum_cex :
    calculateRoofingCost
        ⟨.residential, 1000, some .asphalt, .replacement, .simple, true, false⟩
      = .ok ⟨5400, 3600, 1500, 6500, 11500, 9000⟩
    ∧ ¬((5400 : ℚ) + 3600 + 1500 = 9000) := by
  constructor
  · norm_num +decide [calculateRoofingCost, mkBreakdown, complexityMultipliers,
      materialPricing]
  · norm_num

/-- C2 (amended): for every valid request, `materials + labor = totalMid`
exactly, so `materials + labor + addons = totalMid + addons`; the claimed
identity `materials + labor + addons = totalMid` holds exactly when the
add-ons value is zero, and fails (by exactly the add-ons amount) whenever it
is nonzero. -/
theorem materials_labor_sum (fd : CalculatorFormData) (b : CostBreakdown)
    (h : calculateRoofingCost fd = .ok b) :
    b.materials + b.labor = b.totalMid
    ∧ b.materials + b.labor + b.addons = b.totalMid + b.addons
    ∧ (b.addons = 0 → b.materials + b.labor + b.addons = b.totalMid) := by
  obtain ⟨m, l, hi, hm, hpr, hs, rfl⟩ := calc_ok_elim h
  rw [mkBreakdown_materials, mkBreakdown_labor]
  refine ⟨by ring, by ring, ?_⟩
  intro h0
  rw [h0]
  ring

/-- C2, witness for the amended theorem at a concrete valid request. -/
theorem materials_labor_sum_witness :
    (5400 : ℚ) + 3600 = 9000
    ∧ (5400 : ℚ) + 3600 + 1500 = 9000 + 1500
    ∧ ((1500 : ℚ) = 0 → (5400 : ℚ) + 3600 + 1500 = 9000) :=
  materials_labor_sum
    ⟨.residential, 1000, some .asphalt, .replacement, .simple, true, false⟩
    ⟨5400, 3600, 1500, 6500, 11500, 9000⟩
    (by norm_num +decide [calculateRoofingCost, mkBreakdown, complexityMultipliers,
      materialPricing])

/-- C3: for every valid request, the display fields are derived from
`totalMid` only — `materials = totalMid × 0.6`, `labor = totalMid × 0.4` —
and the `addons` field is the step-5 add-ons value reused verbatim. -/
theorem display_fields_from_totalMid (fd : CalculatorFormData)
    (b : CostBreakdown) (h : calculateRoofingCost fd = .ok b) :
    b.materials = b.totalMid * 0.6
    ∧ b.labor = b.totalMid * 0.4
    ∧ b.addons = addonsOf fd := by
  obtain ⟨m, l, hi, hm, hpr, hs, rfl⟩ := calc_ok_elim h
  exact ⟨mkBreakdown_materials fd l hi, mkBreakdown_labor fd l hi,
    mkBreakdown_addons fd l hi⟩

/-- C3, witness at a concrete valid request. -/
theorem display_fields_from_totalMid_witness :
    (5400 : ℚ) = 9000 * 0.6
    ∧ (3600 : ℚ) = 9000 * 0.4
    ∧ (1500 : ℚ) = addonsOf
        ⟨.residential, 1000, some .asphalt, .replacement, .simple, true, false⟩ :=
  display_fields_from_totalMid
    ⟨.residential, 1000, some .asphalt, .replacement, .simple, true, false⟩
    ⟨5400, 3600, 1500, 6500, 11500, 9000⟩
    (by norm_num +decide [calculateRoofingCost, mkBreakdown, complexityMultipliers,
      materialPricing])

/-- C4: for every valid request the returned breakdown satisfies
`totalLow ≤ totalMid ≤ totalHigh` (every catalog pair has `low ≤ high`, so
no extra hypothesis on the catalog is needed). -/
theorem totals_ordered (fd : CalculatorFormData) (b : CostBreakdown)
    (h : calculateRoofingCost fd = .ok b) :
    b.totalLow ≤ b.totalMid ∧ b.totalMid ≤ b.totalHigh := by
  obtain ⟨m, l, hi, hm, hpr, hs, rfl⟩ := calc_ok_elim h
  have hlh := materialPricing_le hpr
  rw [mkBreakdown_totalLow, mkBreakdown_totalMid, mkBreakdown_totalHigh]
  constructor
  · have := scaledBase_mono fd (show l ≤ (l + hi) / 2 by linarith) hs.le
    linarith
  · have := scaledBase_mono fd (show (l + hi) / 2 ≤ hi by linarith) hs.le
    linarith

/-- C4, witness at a concrete valid request. -/
theorem totals_ordered_witness :
    (5604 : ℚ) ≤ 8156 ∧ (8156 : ℚ) ≤ 10708 :=
  totals_ordered ⟨.commercial, 1000, some .tpo, .new, .complex, false, true⟩
    ⟨4893.6, 3262.4, 500, 5604, 10708, 8156⟩
    (by norm_num +decide [calculateRoofingCost, mkBreakdown, complexityMultipliers,
      materialPricing])

/-- C5: the reference scenario (commercial, area 1000, tpo priced 4–8,
complex, new, no tearoff, permits) returns `totalMid = 8156`, matching the
chain mid base 6000 → labor factor 1.16 → 6960 → commercial ×1.10 → 7656 →
+500 add-ons. -/
theorem commercial_tpo_scenario :
    calculateRoofingCost ⟨.commercial, 1000, some .tpo, .new, .complex, false, true⟩
      = .ok ⟨4893.6, 3262.4, 500, 5604, 10708, 8156⟩
    ∧ (1000 : ℚ) * ((4 + 8) / 2) = 6000
    ∧ (6000 : ℚ) * (1 + 0.4 * 0.4) = 6960
    ∧ (6960 : ℚ) * 1.1 = 7656
    ∧ (7656 : ℚ) + 500 = 8156 := by
  refine ⟨?_, by norm_num, by norm_num, by norm_num, by norm_num⟩
  norm_num +decide [calculateRoofingCost, mkBreakdown, complexityMultipliers,
    materialPricing]

/-- C6: for every valid request the add-ons value is
`(area × 1.5 if tearoff ∧ jobType = replacement else 0) + (500 if permits
else 0)`; it is added unchanged to all three totals on top of the fully
multiplied base (`scaledBase`, which carries the complexity factor, the
commercial premium and the repair reduction), and it is itself independent
of complexity and category. -/
theorem addons_flat_additive (fd : CalculatorFormData) (b : CostBreakdown)
    (h : calculateRoofingCost fd = .ok b) :
    b.addons = (if fd.tearoff ∧ fd.jobType = .replacement
                  then fd.roofSize * 1.5 else 0)
               + (if fd.permits then (500 : ℚ) else 0)
    ∧ (∀ c rt, addonsOf { fd with complexity := c, roofingType := rt }
        = addonsOf fd)
    ∧ (∀ m l hi, fd.material = some m →
        materialPricing fd.roofingType m = some (l, hi) →
        b.totalLow = scaledBase fd l + b.addons
        ∧ b.totalMid = scaledBase fd ((l + hi) / 2) + b.addons
        ∧ b.totalHigh = scaledBase fd hi + b.addons) := by
  obtain ⟨m, l, hi, hm, hpr, hs, rfl⟩ := calc_ok_elim h
  refine ⟨rfl, fun c rt => rfl, ?_⟩
  intro m2 l2 hi2 hm2 hpr2
  obtain rfl : m = m2 := by
    rw [hm] at hm2
    injection hm2
  rw [hpr] at hpr2
  obtain ⟨rfl, rfl⟩ : l = l2 ∧ hi = hi2 := by
    injection hpr2 with hq
    exact ⟨congrArg Prod.fst hq, congrArg Prod.snd hq⟩
  exact ⟨mkBreakdown_totalLow fd l hi, mkBreakdown_totalMid fd l hi,
    mkBreakdown_totalHigh fd l hi⟩

/-- C6, witness at a concrete valid request with nonzero add-ons. -/
theorem addons_flat_additive_witness :
    (1500 : ℚ) = (if (true : Bool) ∧ JobType.replacement = JobType.replacement
                    then (1000 : ℚ) * 1.5 else 0)
                 + (if (false : Bool) then (500 : ℚ) else 0)
    ∧ (6500 : ℚ)
        = scaledBase
            ⟨.residential, 1000, some .asphalt, .replacement, .simple, true, false⟩ 5
          + 1500 := by
  have h := addons_flat_additive
    ⟨.residential, 1000, some .asphalt, .replacement, .simple, true, false⟩
    ⟨5400, 3600, 1500, 6500, 11500, 9000⟩
    (by norm_num +decide [calculateRoofingCost, mkBreakdown, complexityMultipliers,
      materialPricing])
  exact ⟨h.1, (h.2.2 .asphalt 5 10 rfl rfl).1⟩

/-- C9: with both add-on flags off, every component of the breakdown is
homogeneous of degree one in the area: scaling the area by `k > 0` scales
`materials`, `labor`, `addons`, `totalLow`, `totalHigh` and `totalMid` by
`k` — in particular the core function imposes no cap of its own on the
area. -/
theorem cost_homogeneous (fd : CalculatorFormData) (k a : ℚ)
    (ht : fd.tearoff = false) (hperm : fd.permits = false)
    (ha : 0 < a) (hk : 0 < k) (b : CostBreakdown)
    (h : calculateRoofingCost { fd with roofSize := a } = .ok b) :
    calculateRoofingCost { fd with roofSize := k * a }
      = .ok ⟨k * b.materials, k * b.labor, k * b.addons,
             k * b.totalLow, k * b.totalHigh, k * b.totalMid⟩ := by
  obtain ⟨m, l, hi, hm, hpr, hs, rfl⟩ := calc_ok_elim h
  have hm' : fd.material = some m := hm
  have hpr' : materialPricing fd.roofingType m = some (l, hi) := hpr
  have h2 := calc_ok_intro { fd with roofSize := k * a } m l hi hm' hpr'
    (mul_pos hk ha)
  rw [h2]
  have haz : addonsOf { fd with roofSize := k * a } = 0 :=
    addonsOf_eq_zero _ ht hperm
  have haz' : addonsOf { fd with roofSize := a } = 0 :=
    addonsOf_eq_zero _ ht hperm
  congr 1
  ext <;>
    simp only [mkBreakdown_materials, mkBreakdown_labor, mkBreakdown_addons,
      mkBreakdown_totalLow, mkBreakdown_totalMid, mkBreakdown_totalHigh,
      scaledBase_roofSize, haz, haz'] <;>
    ring

/-- C9, witness: doubling the area of a concrete flag-free request doubles
every component. -/
theorem cost_homogeneous_witness :
    calculateRoofingCost
        { (⟨.residential, 1, some .asphalt, .new, .simple, false, false⟩ :
            CalculatorFormData) with roofSize := 2 * 1 }
      = .ok ⟨2 * 4.5, 2 * 3, 2 * 0, 2 * 5, 2 * 10, 2 * 7.5⟩ :=
  cost_homogeneous ⟨.residential, 1, some .asphalt, .new, .simple, false, false⟩
    2 1 rfl rfl (by norm_num) (by norm_num) ⟨4.5, 3, 0, 5, 10, 7.5⟩
    (by norm_num +decide [calculateRoofingCost, mkBreakdown, complexityMultipliers,
      materialPricing])

/-- Rational bracketing of `√1000` tight enough to settle the rounding. -/
theorem sqrt_thousand_bounds :
    (31.6227 : ℝ) < Real.sqrt 1000 ∧ Real.sqrt 1000 < 31.6228 := by
  constructor
  · rw [show (31.6227 : ℝ) < Real.sqrt 1000 ↔ (31.6227 : ℝ) ^ 2 < 1000 from
      Real.lt_sqrt (by norm_num)]
    norm_num
  · rw [Real.sqrt_lt' (by norm_num : (0 : ℝ) < 31.6228)]
    norm_num

/-- The reference-scenario value of `calculateRoofSize`, shared by the C7
theorem and counterexample: `(1000 + 4·√1000)·1.3·1.125 ≈ 1647.493`, which
rounds to 1647. -/
theorem roofSize_thousand_eq : calculateRoofSize ⟨1000, 12, .medium⟩ = 1647 := by
  obtain ⟨hlb, hub⟩ := sqrt_thousand_bounds
  simp only [calculateRoofSize, pitchMultipliers]
  rw [if_neg (by norm_num : ¬((1000 : ℝ) ≤ 0)), round_eq, Int.floor_eq_iff]
  push_cast
  constructor
  · nlinarith [hlb, hub]
  · nlinarith [hlb, hub]

/-- C7, counterexample: the scenario (footprint 1000, overhang 12, medium
pitch) does not return 1648 — the exact value
`(1000 + 4·√1000)·1.3·1.125 ≈ 1647.493` rounds down to 1647, so the spec's
"≈ 1648 (rounded)" names the wrong integer. -/
theorem roofSize_scenario_cex : calculateRoofSize ⟨1000, 12, .medium⟩ ≠ 1648 := by
  rw [roofSize_thousand_eq]
  decide

/-- C7 (amended): `estimateArea(footprint=1000, overhang=12, pitch=medium)`
returns 1647: perimeter `4·√1000 ≈ 126.491`, overhang converted
inches→feet by dividing by 12, and `(1000 + 4·√1000)·1.3·1.125 ≈ 1647.493`
rounds to 1647 (not 1648). -/
theorem roofSize_scenario_value : calculateRoofSize ⟨1000, 12, .medium⟩ = 1647 :=
  roofSize_thousand_eq

/-- C8: for every overhang and pitch, `calculateRoofSize` returns 0 whenever
the footprint is ≤ 0, without any error. -/
theorem roofSize_nonpos_footprint (data : RoofSizeHelperData)
    (h : data.footprint ≤ 0) : calculateRoofSize data = 0 := by
  rw [calculateRoofSize, if_pos h]

/-- C8, witness at footprint 0. -/
theorem roofSize_nonpos_footprint_witness : calculateRoofSize ⟨0, 5, .flat⟩ = 0 :=
  roofSize_nonpos_footprint ⟨0, 5, .flat⟩ (le_refl 0)

/-- C10: `calculateRoofSize` does not validate the overhang — at
footprint 1 (> 0), overhang −100 (< 0), flat pitch, the returned "area" is
negative: `(1 + 4·(−100)/12)·1.0·1.125 = −36.375`, which rounds to −36. -/
theorem negative_overhang_negative_area :
    (0 : ℝ) < 1 ∧ (-100 : ℝ) < 0
    ∧ calculateRoofSize ⟨1, -100, .flat⟩ = -36
    ∧ calculateRoofSize ⟨1, -100, .flat⟩ < 0 := by
  have hval : calculateRoofSize ⟨1, -100, .flat⟩ = -36 := by
    simp only [calculateRoofSize, pitchMultipliers, Real.sqrt_one]
    rw [if_neg (by norm_num : ¬((1 : ℝ) ≤ 0)), round_eq, Int.floor_eq_iff]
    push_cast
    constructor
    · norm_num
    · norm_num
  exact ⟨by norm_num, by norm_num, hval, by rw [hval]; decide⟩

end RoofCalc
